import Mathlib

/-!
Verification of the OpenRouter MCP server's model-registry layer.

The development shallowly embeds, in Lean 4:

* the tool handlers present in the sources (`search-models.ts`,
  `get-model-info.ts`, `chat-completion.ts`, `validate-model.ts`), and
* the model cache and rate-limited registry client, whose source files
  (`model-cache.ts`, `openrouter-api.ts`) are not part of the given sources and
  are therefore modelled from the specification document (each such definition
  carries a doc comment beginning with "Modelled from the spec:").

Conventions of the embedding:

* JavaScript numbers that the handlers compare are embedded as `Int`
  (for lengths and limits) and `Rat` (for prices); the pricing decimals,
  transported as strings in JSON and read back with `parseFloat`, are
  represented directly as rationals, so `parseFloat` becomes the identity.
* JavaScript truthiness tests on these optional values are translated
  explicitly: an absent value, the empty string, and the number 0 are falsy.
* Timestamps are milliseconds as `Nat` (the JS `Date.now()` clock).
* JSON serialization of responses (`JSON.stringify`) is abstracted: handlers
  are embedded down to the structured response payloads they serialize.
-/

/-- Capability flags of a model, each optional in the upstream payload
(shape used by `model.capabilities?.x` accesses throughout the handlers). -/
structure ModelCapabilities where
  functions : Option Bool
  tools : Option Bool
  vision : Option Bool
  json_mode : Option Bool
deriving DecidableEq, Repr

/-- One catalog entry, the `OpenRouterModel` interface (pricing flattened;
`pricing.prompt` / `pricing.completion` are per-1K-token decimals). -/
structure OpenRouterModel where
  id : String
  name : String
  description : Option String
  context_length : Int
  pricing_prompt : Rat
  pricing_completion : Rat
  capabilities : Option ModelCapabilities
deriving DecidableEq, Repr

/-- Arguments of the search_models tool (`SearchModelsToolRequest`). -/
structure SearchModelsToolRequest where
  query : Option String
  provider : Option String
  minContextLength : Option Int
  maxContextLength : Option Int
  maxPromptPrice : Option Rat
  maxCompletionPrice : Option Rat
  capabilities : Option ModelCapabilities
  limit : Option Int
deriving DecidableEq, Repr

/-- The all-absent argument record (every filter disabled). -/
def emptySearchArgs : SearchModelsToolRequest :=
  ⟨none, none, none, none, none, none, none, none⟩

/-- JavaScript `s.includes(pat)`: substring containment. -/
def jsIncludes (s pat : String) : Bool :=
  (List.range (s.length + 1)).any (fun i => pat.isPrefixOf (s.drop i))

/-- JavaScript `s.toLowerCase()`, modelled as per-character lowercasing. -/
def jsToLower (s : String) : String :=
  ⟨s.data.map Char.toLower⟩

/-- JavaScript `id.split('/')[0]`: the part of the string before the first
slash (the whole string when there is no slash). -/
def providerOf (id : String) : String :=
  ⟨id.data.takeWhile (fun c => c != '/')⟩

/-- The `model.capabilities?.field || false` access pattern of the handlers. -/
def capFlag (caps : Option ModelCapabilities) (f : ModelCapabilities → Option Bool) : Bool :=
  (caps.bind f).getD false

/-- The filter predicate applied to each model by `handleSearchModels`
(search-models.ts lines 55-89), including the JS truthiness guards:
an absent argument, an empty string, or the number 0 disables its filter. -/
def searchModelFilter (args : SearchModelsToolRequest) (m : OpenRouterModel) : Bool :=
  -- Text search: case-normalized substring match on id, name, description
  (match args.query with
   | none => true
   | some q =>
     if q = "" then true
     else
       let searchTerm := jsToLower q
       jsIncludes (jsToLower m.id) searchTerm
       || (m.name ≠ "" && jsIncludes (jsToLower m.name) searchTerm)
       || (match m.description with
           | some d => d ≠ "" && jsIncludes (jsToLower d) searchTerm
           | none => false))
  -- Provider filter: raw prefix of id compared with the lowercased argument
  && (match args.provider with
      | none => true
      | some p => if p = "" then true else providerOf m.id == jsToLower p)
  -- Context length filters
  && (match args.minContextLength with
      | none => true
      | some v => if v = 0 then true else !(m.context_length < v))
  && (match args.maxContextLength with
      | none => true
      | some v => if v = 0 then true else !(m.context_length > v))
  -- Price filters (parseFloat on the decimal string is the identity here)
  && (match args.maxPromptPrice with
      | none => true
      | some v => if v = 0 then true else !(m.pricing_prompt > v))
  && (match args.maxCompletionPrice with
      | none => true
      | some v => if v = 0 then true else !(m.pricing_completion > v))
  -- Capabilities filters
  && (match args.capabilities with
      | none => true
      | some cf =>
        !(cf.functions.getD false && !(capFlag m.capabilities (·.functions)))
        && !(cf.tools.getD false && !(capFlag m.capabilities (·.tools)))
        && !(cf.vision.getD false && !(capFlag m.capabilities (·.vision)))
        && !(cf.json_mode.getD false && !(capFlag m.capabilities (·.json_mode))))

/-- JavaScript `l.slice(0, e)`: a negative end counts from the end of the
list, and the result is clamped to the available elements. -/
def jsSliceTo {α : Type} (l : List α) (e : Int) : List α :=
  if e < 0 then l.take ((Int.ofNat l.length + e).toNat) else l.take e.toNat

/-- The effective limit `args.limit || 10` of search-models.ts line 91:
an absent or zero limit falls back to 10; no other clamping happens. -/
def effectiveLimit (args : SearchModelsToolRequest) : Int :=
  match args.limit with
  | none => 10
  | some v => if v = 0 then 10 else v

/-- Capability booleans as they appear in formatted responses. -/
structure FormattedCapabilities where
  functions : Bool
  tools : Bool
  vision : Bool
  json_mode : Bool
deriving DecidableEq, Repr

/-- The per-model payload built by both get_model_info (lines 41-56) and
search_models (lines 92-107): pricing rendered as display strings,
absent description and capabilities replaced by defaults. -/
structure FormattedModelData where
  id : String
  name : String
  description : String
  context_length : Int
  pricing_prompt : String
  pricing_completion : String
  capabilities : FormattedCapabilities
deriving DecidableEq, Repr

/-- JavaScript `model.description || 'No description available'`
(an absent or empty description is falsy). -/
def descriptionOrDefault (d : Option String) : String :=
  match d with
  | some s => if s = "" then "No description available" else s
  | none => "No description available"

/-- The `data` payload of handleGetModelInfo (get-model-info.ts lines 41-56). -/
def formatModelData (m : OpenRouterModel) : FormattedModelData :=
  { id := m.id
    name := m.name
    description := descriptionOrDefault m.description
    context_length := m.context_length
    pricing_prompt := "$" ++ toString m.pricing_prompt ++ "/1K tokens"
    pricing_completion := "$" ++ toString m.pricing_completion ++ "/1K tokens"
    capabilities :=
      { functions := capFlag m.capabilities (·.functions)
        tools := capFlag m.capabilities (·.tools)
        vision := capFlag m.capabilities (·.vision)
        json_mode := capFlag m.capabilities (·.json_mode) } }

/-- One entry of the search_models result list (search-models.ts lines 92-107;
textually the same mapping as in get-model-info.ts). -/
def searchResultEntry (m : OpenRouterModel) : FormattedModelData :=
  { id := m.id
    name := m.name
    description := descriptionOrDefault m.description
    context_length := m.context_length
    pricing_prompt := "$" ++ toString m.pricing_prompt ++ "/1K tokens"
    pricing_completion := "$" ++ toString m.pricing_completion ++ "/1K tokens"
    capabilities :=
      { functions := capFlag m.capabilities (·.functions)
        tools := capFlag m.capabilities (·.tools)
        vision := capFlag m.capabilities (·.vision)
        json_mode := capFlag m.capabilities (·.json_mode) } }

/-- The filter, slice and map pipeline of handleSearchModels
(search-models.ts lines 54-107). -/
def searchResultsFor (models : List OpenRouterModel) (args : SearchModelsToolRequest) :
    List FormattedModelData :=
  (jsSliceTo (models.filter (searchModelFilter args)) (effectiveLimit args)).map searchResultEntry

/-- The structured part of the search_models response (search-models.ts
lines 109-128; the id and created fields, which depend on the wall clock
only, are omitted). -/
structure SearchResponse where
  data : List FormattedModelData
  total_models : Nat
  filtered_count : Nat
deriving DecidableEq, Repr

/-- The response built by handleSearchModels from a resolved catalog. -/
def searchResponse (models : List OpenRouterModel) (args : SearchModelsToolRequest) :
    SearchResponse :=
  let results := searchResultsFor models args
  ⟨results, models.length, results.length⟩

/-! ## Model cache (modelled from the spec) -/

/-- Modelled from the spec: `model-cache.ts` is absent from the sources.
A catalog snapshot, spec section 3: the ordered entries of a fetch together
with its `fetched_at` timestamp (the `timestamp` field installed by
search-models.ts line 35). -/
structure CatalogSnapshot where
  data : List OpenRouterModel
  timestamp : Nat
deriving DecidableEq, Repr

/-- Modelled from the spec: `model-cache.ts` is absent from the sources.
The cache state is the current snapshot, if any (spec section 4.2,
states EMPTY / POPULATED / STALE; staleness is judged at read time). -/
structure CacheState where
  snapshot : Option CatalogSnapshot
deriving DecidableEq, Repr

/-- Modelled from the spec: the freshness threshold, design default 1 hour,
in milliseconds (spec section 4.2). -/
def freshnessThresholdMs : Nat := 3600000

/-- Modelled from the spec: `model-cache.ts` is absent from the sources.
`getCachedModels()` returns the current snapshot without triggering a fetch,
or absent if never populated or past the freshness threshold
(spec section 4.2); a snapshot is fresh while its age does not exceed the
threshold. -/
def getCachedModels (st : CacheState) (now : Nat) : Option CatalogSnapshot :=
  match st.snapshot with
  | some snap => if now - snap.timestamp ≤ freshnessThresholdMs then some snap else none
  | none => none

/-- A cache operation outcome: the returned value, the cache state after the
operation, and how many upstream fetches the operation performed. The fetch
count makes "this operation never triggers a fetch" a provable statement. -/
structure CacheOp (α : Type) where
  result : α
  state : CacheState
  fetches : Nat
deriving Repr

/-- Modelled from the spec: `model-cache.ts` is absent from the sources.
`getCachedModels` as a cache operation: it performs no fetch and leaves the
state unchanged (spec sections 4.2 and 5: it never blocks on I/O). -/
def getCachedModelsOp (st : CacheState) (now : Nat) : CacheOp (Option CatalogSnapshot) :=
  ⟨getCachedModels st now, st, 0⟩

/-- Modelled from the spec: `model-cache.ts` is absent from the sources.
`setCachedModels(snapshot)` installs a new snapshot wholesale, overwriting
any prior one (spec section 4.2). -/
def setCachedModels (_st : CacheState) (snap : CatalogSnapshot) : CacheState :=
  ⟨some snap⟩

/-- Modelled from the spec: the typed failure of the registry client
(spec sections 4.1 and 7). -/
inductive FetchError where
  | upstreamUnavailable
  | rateLimited
deriving DecidableEq, Repr

/-- Case-sensitive exact-match lookup of a model id in a catalog
(spec section 4.2: lookup is case-sensitive exact match on id). -/
def lookupModel (models : List OpenRouterModel) (id : String) : Option OpenRouterModel :=
  models.find? (fun m => m.id == id)

/-- Modelled from the spec: `model-cache.ts` is absent from the sources.
`getModelInfo(id)` resolves against the freshest available snapshot,
triggering a refresh through the registry client if the cache is empty or
stale; the refresh outcome is passed in as the `fetch` oracle. On a failed
refresh the prior state is kept and the lookup falls back to the stale
snapshot when one exists, else answers absent (spec sections 4.2 and 7). -/
def getModelInfo (st : CacheState) (now : Nat)
    (fetch : Except FetchError (List OpenRouterModel)) (id : String) :
    CacheOp (Option OpenRouterModel) :=
  match getCachedModels st now with
  | some snap => ⟨lookupModel snap.data id, st, 0⟩
  | none =>
    match fetch with
    | .ok models => ⟨lookupModel models id, ⟨some ⟨models, now⟩⟩, 1⟩
    | .error _ =>
      ⟨(match st.snapshot with
        | some snap => lookupModel snap.data id
        | none => none), st, 1⟩

/-- Modelled from the spec: `model-cache.ts` is absent from the sources.
`validateModel(id)` is `getModelInfo(id) != absent` (spec section 4.2). -/
def validateModel (st : CacheState) (now : Nat)
    (fetch : Except FetchError (List OpenRouterModel)) (id : String) : Bool :=
  (getModelInfo st now fetch id).result.isSome

/-! ## Tool results and the validate_model handler -/

/-- One content item of a tool response (types.ts; the `type` discriminator is
always "text" and is omitted). -/
structure ResponseContentItem where
  text : String
deriving DecidableEq, Repr

/-- The unified tool response shape (types.ts). -/
structure ToolResult where
  isError : Bool
  content : List ResponseContentItem
deriving DecidableEq, Repr

/-- The validate_model handler (validate-model.ts lines 9-59): a non-error
result carrying the validity JSON when the cache validates the id, an error
result otherwise. The serialized JSON payload is abstracted to its fields. -/
def handleValidateModel (st : CacheState) (now : Nat)
    (fetch : Except FetchError (List OpenRouterModel)) (model : String) : ToolResult :=
  if validateModel st now fetch model then
    ⟨false, [⟨"model: " ++ model ++ ", valid: true"⟩]⟩
  else
    ⟨true, [⟨"Error: Model not found: " ++ model⟩]⟩

/-! ## Rate-limited registry client (modelled from the spec) -/

/-- Modelled from the spec: `openrouter-api.ts` is absent from the sources.
A raw catalog entry as parsed from the response body, before validation:
the required `id` may be missing (spec section 4.1). -/
structure RawEntry where
  id? : Option String
  name : String
  description : Option String
  context_length : Int
  pricing_prompt : Rat
  pricing_completion : Rat
  capabilities : Option ModelCapabilities
deriving DecidableEq, Repr

/-- The model a well-formed raw entry yields, given its id. -/
def rawToModel (e : RawEntry) (id : String) : OpenRouterModel :=
  ⟨id, e.name, e.description, e.context_length, e.pricing_prompt,
   e.pricing_completion, e.capabilities⟩

/-- Modelled from the spec: `openrouter-api.ts` is absent from the sources.
Entry validation of `fetchModels`: entries missing `id` are dropped (with a
logged warning) rather than failing the whole fetch (spec section 4.1). -/
def parseEntries (body : List RawEntry) : List OpenRouterModel :=
  body.filterMap (fun e => e.id?.map (rawToModel e))

/-- Modelled from the spec: the bounded attempt budget, design default 5
(spec section 4.1). -/
def maxAttempts : Nat := 5

/-- Modelled from the spec: the exponential-backoff delay before the attempt
after attempt number `attempt` (0-based): the initial delay doubled each
attempt, clamped at the maximum delay (spec section 4.1). -/
def backoffDelay (initialDelay maxDelay attempt : Nat) : Nat :=
  min (initialDelay * 2 ^ attempt) maxDelay

/-- Modelled from the spec: `openrouter-api.ts` is absent from the sources.
The retry loop of `fetchModels` for transport / 5xx failures: attempt
outcomes come from the `outcomes` oracle (`none` is a transport error,
`some body` a successful response). Returns the final result and the list of
backoff waits taken between attempts. The 429 reset-signal override is not
modelled; no claim quantifies over 429 responses. -/
def fetchLoop (outcomes : Nat → Option (List RawEntry)) (initialDelay maxDelay : Nat) :
    Nat → Nat → Except FetchError (List OpenRouterModel) × List Nat
  | _, 0 => (.error .upstreamUnavailable, [])
  | attempt, remaining + 1 =>
    match outcomes attempt with
    | some body => (.ok (parseEntries body), [])
    | none =>
      if remaining = 0 then (.error .upstreamUnavailable, [])
      else
        let rest := fetchLoop outcomes initialDelay maxDelay (attempt + 1) remaining
        (rest.1, backoffDelay initialDelay maxDelay attempt :: rest.2)

/-- Modelled from the spec: `openrouter-api.ts` is absent from the sources.
`fetchModels()` with its retry policy (spec section 4.1), yielding the
parsed catalog or a typed failure, plus the waits it performed. -/
def fetchModels (initialDelay maxDelay : Nat) (outcomes : Nat → Option (List RawEntry)) :
    Except FetchError (List OpenRouterModel) × List Nat :=
  fetchLoop outcomes initialDelay maxDelay 0 maxAttempts

/-- The attempt outcomes of the claim C5 scenario: transport errors on
attempts 1 through 4 (0-based 0..3), success with body `raw` on attempt 5. -/
def failFourTimes (raw : List RawEntry) : Nat → Option (List RawEntry) :=
  fun n => if n < 4 then none else some raw

/-! ## Message truncation (chat-completion.ts) -/

/-- A conversation message (role and textual content). -/
structure ChatMessage where
  role : String
  content : String
deriving DecidableEq, Repr

/-- The placeholder read for an out-of-range index (never reached on the
executions the theorems are about). -/
def defaultChatMessage : ChatMessage := ⟨"", ""⟩

/-- Token estimate of chat-completion.ts lines 15-18: `Math.ceil(length / 4)`. -/
def estimateTokenCount (text : String) : Nat :=
  (text.length + 3) / 4

/-- JavaScript `messages[0]?.role === 'system'` (chat-completion.ts line 29). -/
def headIsSystem (messages : List ChatMessage) : Bool :=
  match messages with
  | [] => false
  | m :: _ => m.role == "system"

/-- The backward loop of truncateMessagesToFit (chat-completion.ts
lines 35-48): `fuel` is the loop index plus one (the loop visits index
`fuel - 1` next and stops past index 0); `cur` is `currentTokenCount` and
`acc` the `truncated` list built so far. A message that fits is unshifted
onto the front; the first message that does not fit stops the loop
(JavaScript `break`), and index 0 is skipped when the system message was
already added. -/
def truncateLoop (messages : List ChatMessage) (maxTokens : Nat) (sysSkip : Bool) :
    Nat → Nat → List ChatMessage → List ChatMessage
  | 0, _, acc => acc
  | fuel + 1, cur, acc =>
    if sysSkip && fuel == 0 then truncateLoop messages maxTokens sysSkip fuel cur acc
    else
      let m := messages.getD fuel defaultChatMessage
      let t := estimateTokenCount m.content
      if cur + t > maxTokens then acc
      else truncateLoop messages maxTokens sysSkip fuel (cur + t) (m :: acc)

/-- truncateMessagesToFit (chat-completion.ts lines 21-51): the system
message at index 0, when present, is pushed first and counted; then messages
are added from the end while they fit. -/
def truncateMessagesToFit (messages : List ChatMessage) (maxTokens : Nat) :
    List ChatMessage :=
  let sys := headIsSystem messages
  let base : List ChatMessage :=
    if sys then [messages.getD 0 defaultChatMessage] else []
  let cur0 : Nat :=
    if sys then estimateTokenCount (messages.getD 0 defaultChatMessage).content else 0
  truncateLoop messages maxTokens sys messages.length cur0 base

/-- Index-level shadow of `truncateLoop`: the same control flow, recording
the positions of the messages kept instead of their values. Positions stand
for the JavaScript object identities of the array elements. -/
def truncateIdxLoop (messages : List ChatMessage) (maxTokens : Nat) (sysSkip : Bool) :
    Nat → Nat → List Nat → List Nat
  | 0, _, acc => acc
  | fuel + 1, cur, acc =>
    if sysSkip && fuel == 0 then truncateIdxLoop messages maxTokens sysSkip fuel cur acc
    else
      let m := messages.getD fuel defaultChatMessage
      let t := estimateTokenCount m.content
      if cur + t > maxTokens then acc
      else truncateIdxLoop messages maxTokens sysSkip fuel (cur + t) (fuel :: acc)

/-- The positions of the input messages that truncateMessagesToFit keeps,
in output order. -/
def truncateKeptPositions (messages : List ChatMessage) (maxTokens : Nat) : List Nat :=
  let sys := headIsSystem messages
  let base : List Nat := if sys then [0] else []
  let cur0 : Nat :=
    if sys then estimateTokenCount (messages.getD 0 defaultChatMessage).content else 0
  truncateIdxLoop messages maxTokens sys messages.length cur0 base

/-! ## Single-flight refresh coordination (modelled from the spec) -/

/-- Modelled from the spec: `model-cache.ts` is absent from the sources.
A state of N concurrent `getModelInfo` callers racing on one cache within a
single staleness window (spec sections 4.2, 5 and 9): `starters` callers have
not yet checked the cache, `waiters` are attached to the pending in-flight
fetch, and `finished` records the snapshot each completed caller observed.
`pending` says whether a refresh is in flight and `fetchCount` counts calls
into the registry client's `fetchModels`. -/
structure FlightState where
  snapshot : Option (List OpenRouterModel)
  pending : Bool
  fetchCount : Nat
  starters : Nat
  waiters : Nat
  finished : List (List OpenRouterModel)
deriving DecidableEq, Repr

/-- The initial state of the race: an empty cache and n callers. -/
def initFlight (n : Nat) : FlightState :=
  ⟨none, false, 0, n, 0, []⟩

/-- Modelled from the spec: `model-cache.ts` is absent from the sources.
One atomic step of the single-flight protocol of spec section 9: a caller
that observes a populated cache answers from it; a caller that observes an
empty cache attaches to the pending fetch when one exists and otherwise
creates it (the only step that invokes `fetchModels`); a completing fetch
installs the snapshot `S` and resolves every attached caller with it.
The interleaving of steps is arbitrary. -/
inductive FlightStep (S : List OpenRouterModel) : FlightState → FlightState → Prop where
  | hitCache (st : FlightState) (c : List OpenRouterModel) :
      0 < st.starters → st.snapshot = some c →
      FlightStep S st { st with starters := st.starters - 1, finished := c :: st.finished }
  | joinFlight (st : FlightState) :
      0 < st.starters → st.snapshot = none → st.pending = true →
      FlightStep S st { st with starters := st.starters - 1, waiters := st.waiters + 1 }
  | beginFetch (st : FlightState) :
      0 < st.starters → st.snapshot = none → st.pending = false →
      FlightStep S st { st with starters := st.starters - 1, waiters := st.waiters + 1,
                                pending := true, fetchCount := st.fetchCount + 1 }
  | completeFetch (st : FlightState) :
      st.pending = true →
      FlightStep S st { st with pending := false, snapshot := some S, waiters := 0,
                                finished := List.replicate st.waiters S ++ st.finished }

/-- States reachable from the n-caller empty-cache start by the protocol. -/
def FlightReachable (S : List OpenRouterModel) (n : Nat) (st : FlightState) : Prop :=
  Relation.ReflTransGen (FlightStep S) (initFlight n) st

/-- The protocol invariant: at most one fetch ever starts, a pending flight
accounts for it, a quiescent empty cache has fetched nothing, the installed
snapshot can only be the fetch result, and every finished caller observed
that same result. -/
def FlightInv (S : List OpenRouterModel) (st : FlightState) : Prop :=
  st.fetchCount ≤ 1
  ∧ (st.pending = true → st.fetchCount = 1)
  ∧ (st.snapshot = none → st.pending = false → st.fetchCount = 0)
  ∧ (∀ c, st.snapshot = some c → c = S)
  ∧ (∀ c ∈ st.finished, c = S)

/-! ## Claim theorems -/

/-- Exact-match lookup only ever returns a descriptor carrying the looked-up id. -/
theorem lookupModel_id {models : List OpenRouterModel} {id : String} {m : OpenRouterModel}
    (h : lookupModel models id = some m) : m.id = id := by
  unfold lookupModel at h
  have hp := List.find?_some h
  simp only [beq_iff_eq] at hp
  exact hp

/-- Any descriptor getModelInfo returns carries exactly the looked-up id. -/
theorem getModelInfo_result_id (st : CacheState) (now : Nat)
    (fetch : Except FetchError (List OpenRouterModel)) (id : String) (m : OpenRouterModel)
    (h : (getModelInfo st now fetch id).result = some m) : m.id = id := by
  unfold getModelInfo at h
  rcases hc : getCachedModels st now with _ | snap
  · rw [hc] at h
    rcases fetch with e | models
    · rcases hs : st.snapshot with _ | snap
      · simp [hs] at h
      · rw [hs] at h
        exact lookupModel_id h
    · exact lookupModel_id h
  · rw [hc] at h
    exact lookupModel_id h

/-- Claim C1: validateModel(id) returns true exactly when getModelInfo(id)
returns a present descriptor whose id is that exact string, and
handleValidateModel returns a non-error result exactly when validateModel
returns true (an isError result otherwise). -/
theorem validateModel_iff_getModelInfo (st : CacheState) (now : Nat)
    (fetch : Except FetchError (List OpenRouterModel)) (id : String) :
    (validateModel st now fetch id = true
      ↔ ∃ m, (getModelInfo st now fetch id).result = some m ∧ m.id = id)
    ∧ ((handleValidateModel st now fetch id).isError = false
      ↔ validateModel st now fetch id = true) := by
  constructor
  · constructor
    · intro h
      unfold validateModel at h
      obtain ⟨m, hm⟩ := Option.isSome_iff_exists.mp h
      exact ⟨m, hm, getModelInfo_result_id st now fetch id m hm⟩
    · rintro ⟨m, hm, _⟩
      unfold validateModel
      simp [hm]
  · by_cases hv : validateModel st now fetch id = true <;>
      simp [handleValidateModel, hv]

/-- Claim C2: installing a snapshot and reading it back with no intervening
write, within the freshness window, returns exactly that snapshot. -/
theorem setCachedModels_roundtrip (st : CacheState) (S : CatalogSnapshot) (now : Nat)
    (h : now - S.timestamp ≤ freshnessThresholdMs) :
    getCachedModels (setCachedModels st S) now = some S := by
  simp [setCachedModels, getCachedModels, h]

/-- Witness for claim C2 at a concrete snapshot and time inside the window. -/
theorem setCachedModels_roundtrip_witness :
    (25 : Nat) - (⟨[], 25⟩ : CatalogSnapshot).timestamp ≤ freshnessThresholdMs
    ∧ getCachedModels (setCachedModels ⟨none⟩ ⟨[], 25⟩) 25 = some ⟨[], 25⟩ :=
  ⟨by decide, setCachedModels_roundtrip ⟨none⟩ ⟨[], 25⟩ 25 (by decide)⟩

/-- Claim C3: once the elapsed time since the last install exceeds the
freshness threshold, getCachedModels returns absent with no intervening
write, and getCachedModels never performs a fetch on any state. -/
theorem getCachedModels_stale_absent (st : CacheState) (S : CatalogSnapshot) (now : Nat)
    (h1 : st.snapshot = some S) (h2 : freshnessThresholdMs < now - S.timestamp) :
    (getCachedModelsOp st now).result = none
    ∧ ∀ (st2 : CacheState) (n2 : Nat), (getCachedModelsOp st2 n2).fetches = 0 := by
  refine ⟨?_, fun _ _ => rfl⟩
  simp only [getCachedModelsOp, getCachedModels, h1]
  rw [if_neg (by omega)]

/-- Witness for claim C3: a snapshot installed at time 0 read one
millisecond past the threshold. -/
theorem getCachedModels_stale_absent_witness :
    (⟨some ⟨[], 0⟩⟩ : CacheState).snapshot = some ⟨[], 0⟩
    ∧ freshnessThresholdMs < (3600001 : Nat) - (⟨[], 0⟩ : CatalogSnapshot).timestamp
    ∧ ((getCachedModelsOp ⟨some ⟨[], 0⟩⟩ 3600001).result = none
        ∧ ∀ (st2 : CacheState) (n2 : Nat), (getCachedModelsOp st2 n2).fetches = 0) :=
  ⟨rfl, by decide, getCachedModels_stale_absent ⟨some ⟨[], 0⟩⟩ ⟨[], 0⟩ 3600001 rfl (by decide)⟩

/-- Claim C8: a model whose capabilities object is absent, or whose
individual capability field is absent, is reported with that capability
false by both the get_model_info payload and the search_models entry.
An absent capabilities object makes every field access absent, so each
conjunct covers both the missing-object and the missing-field case. -/
theorem absent_capabilities_reported_false (m : OpenRouterModel) :
    (m.capabilities.bind (fun c => c.functions) = none →
      (formatModelData m).capabilities.functions = false
      ∧ (searchResultEntry m).capabilities.functions = false)
    ∧ (m.capabilities.bind (fun c => c.tools) = none →
      (formatModelData m).capabilities.tools = false
      ∧ (searchResultEntry m).capabilities.tools = false)
    ∧ (m.capabilities.bind (fun c => c.vision) = none →
      (formatModelData m).capabilities.vision = false
      ∧ (searchResultEntry m).capabilities.vision = false)
    ∧ (m.capabilities.bind (fun c => c.json_mode) = none →
      (formatModelData m).capabilities.json_mode = false
      ∧ (searchResultEntry m).capabilities.json_mode = false) := by
  refine ⟨fun h => ?_, fun h => ?_, fun h => ?_, fun h => ?_⟩ <;>
    simp [formatModelData, searchResultEntry, capFlag, h]

/-- A concrete model with no capabilities object, for the claim C8 witness. -/
def c8Model : OpenRouterModel :=
  ⟨"openai/gpt-4", "GPT-4", none, 8192, 0, 0, none⟩

/-- Witness for claim C8: each capability of the capability-free model is
reported false by both formatters. -/
theorem absent_capabilities_reported_false_witness :
    ((formatModelData c8Model).capabilities.functions = false
      ∧ (searchResultEntry c8Model).capabilities.functions = false)
    ∧ ((formatModelData c8Model).capabilities.tools = false
      ∧ (searchResultEntry c8Model).capabilities.tools = false)
    ∧ ((formatModelData c8Model).capabilities.vision = false
      ∧ (searchResultEntry c8Model).capabilities.vision = false)
    ∧ ((formatModelData c8Model).capabilities.json_mode = false
      ∧ (searchResultEntry c8Model).capabilities.json_mode = false) :=
  ⟨(absent_capabilities_reported_false c8Model).1 rfl,
   (absent_capabilities_reported_false c8Model).2.1 rfl,
   (absent_capabilities_reported_false c8Model).2.2.1 rfl,
   (absent_capabilities_reported_false c8Model).2.2.2 rfl⟩

/-- Slicing from 0 with a nonnegative end is an initial segment. -/
theorem jsSliceTo_nonneg {α : Type} (l : List α) (e : Int) (he : 0 ≤ e) :
    jsSliceTo l e = l.take e.toNat := by
  unfold jsSliceTo
  rw [if_neg (not_lt.mpr he)]

/-- Claim C9: the search_models data list is the first min(n, k) filtered
models in catalog order, where k is args.limit when positive and 10 when
the limit is absent or zero; the handler applies no upper clamp at 50. -/
theorem search_limit_semantics (models : List OpenRouterModel)
    (args : SearchModelsToolRequest) :
    ((args.limit = none ∨ args.limit = some 0) →
      (searchResponse models args).data
        = ((models.filter (searchModelFilter args)).take 10).map searchResultEntry)
    ∧ (∀ k : Int, args.limit = some k → 0 < k →
      (searchResponse models args).data
        = ((models.filter (searchModelFilter args)).take k.toNat).map searchResultEntry) := by
  constructor
  · intro h
    have he : effectiveLimit args = 10 := by
      rcases h with h | h <;> simp [effectiveLimit, h]
    simp only [searchResponse, searchResultsFor, he,
      jsSliceTo_nonneg (models.filter (searchModelFilter args)) 10 (by norm_num)]
    rfl
  · intro k hk hpos
    have he : effectiveLimit args = k := by
      simp only [effectiveLimit, hk]
      rw [if_neg (by omega)]
    simp only [searchResponse, searchResultsFor, he,
      jsSliceTo_nonneg (models.filter (searchModelFilter args)) k (le_of_lt hpos)]

/-- A concrete two-model catalog for the claim C9 witness. -/
def c9Catalog : List OpenRouterModel :=
  [⟨"openai/gpt-4", "GPT-4", none, 8192, 0, 0, none⟩,
   ⟨"anthropic/claude-2", "Claude 2", none, 100000, 0, 0, none⟩]

/-- Witness for claim C9: with no limit argument, a catalog of two models
passing every filter yields exactly those two formatted models. -/
theorem search_limit_semantics_witness :
    (emptySearchArgs.limit = none ∨ emptySearchArgs.limit = some 0)
    ∧ (searchResponse c9Catalog emptySearchArgs).data
        = ((c9Catalog.filter (searchModelFilter emptySearchArgs)).take 10).map searchResultEntry
    ∧ (searchResponse c9Catalog emptySearchArgs).data
        = [searchResultEntry c9Catalog[0], searchResultEntry c9Catalog[1]] :=
  ⟨Or.inl rfl,
   (search_limit_semantics c9Catalog emptySearchArgs).1 (Or.inl rfl),
   by decide⟩

/-- A model whose provider part carries uppercase letters, refuting claim C7. -/
def c7Model : OpenRouterModel :=
  ⟨"OpenAI/gpt-4", "GPT-4", none, 8192, 0, 0, none⟩

/-- The search arguments of the claim C7 counterexample. -/
def c7Args : SearchModelsToolRequest :=
  { emptySearchArgs with provider := some "OpenAI" }

/-- Counterexample to claim C7: for provider argument "OpenAI" and the model
with id "OpenAI/gpt-4", the claimed equivalence between retention and
case-normalized equality of the provider parts fails: both sides lowercase
to "openai", yet the filter drops the model because it compares the raw
(non-lowercased) prefix of the id with the lowercased argument. -/
theorem provider_filter_case_counterexample :
    ¬(searchModelFilter c7Args c7Model = true
      ↔ jsToLower (providerOf c7Model.id) = jsToLower "OpenAI") := by
  decide

/-- A lowercase-provider model for the claim C7 amended-statement witness. -/
def c7GoodModel : OpenRouterModel :=
  ⟨"openai/gpt-4", "GPT-4", none, 8192, 0, 0, none⟩

/-- Claim C7 amended: for a non-empty provider argument p, the search_models
provider filter retains a model exactly when the raw (not case-normalized)
provider part of its id — the substring before the first slash — equals the
lowercasing of p; matching is case-sensitive on the model side. -/
theorem provider_filter_amended (p : String) (m : OpenRouterModel) (hp : p ≠ "") :
    searchModelFilter { emptySearchArgs with provider := some p } m = true
      ↔ providerOf m.id = jsToLower p := by
  simp [searchModelFilter, emptySearchArgs, hp]

/-- Witness for the amended claim C7 at provider "openai" and a model whose
id has the all-lowercase provider part "openai". -/
theorem provider_filter_amended_witness :
    ("openai" : String) ≠ ""
    ∧ (searchModelFilter { emptySearchArgs with provider := some "openai" } c7GoodModel = true
        ↔ providerOf c7GoodModel.id = jsToLower "openai")
    ∧ searchModelFilter { emptySearchArgs with provider := some "openai" } c7GoodModel = true :=
  ⟨by decide, provider_filter_amended "openai" c7GoodModel (by decide), by decide⟩

/-- The value-level truncation loop is the index-level loop followed by
reading the messages at the kept positions. -/
theorem truncateLoop_eq_map (messages : List ChatMessage) (maxTokens : Nat) (sysSkip : Bool) :
    ∀ (fuel cur : Nat) (accI : List Nat),
      truncateLoop messages maxTokens sysSkip fuel cur
          (accI.map (fun i => messages.getD i defaultChatMessage))
        = (truncateIdxLoop messages maxTokens sysSkip fuel cur accI).map
            (fun i => messages.getD i defaultChatMessage) := by
  intro fuel
  induction fuel with
  | zero => intro cur accI; rfl
  | succ n ih =>
    intro cur accI
    by_cases h1 : (sysSkip && n == 0) = true
    · simp only [truncateLoop, truncateIdxLoop, if_pos h1]
      exact ih cur accI
    · simp only [truncateLoop, truncateIdxLoop, if_neg h1]
      by_cases h2 :
          cur + estimateTokenCount (messages.getD n defaultChatMessage).content > maxTokens
      · simp only [if_pos h2]
      · simp only [if_neg h2]
        exact ih (cur + estimateTokenCount (messages.getD n defaultChatMessage).content)
          (n :: accI)

/-- With the system-skip flag set, the index loop never adds position 0,
so the count of position 0 among the kept positions is preserved. -/
theorem truncateIdxLoop_count_zero (messages : List ChatMessage) (maxTokens : Nat) :
    ∀ (fuel cur : Nat) (accI : List Nat), accI.count 0 = 1 →
      (truncateIdxLoop messages maxTokens true fuel cur accI).count 0 = 1 := by
  intro fuel
  induction fuel with
  | zero => intro cur accI hacc; exact hacc
  | succ n ih =>
    intro cur accI hacc
    by_cases h1 : ((true : Bool) && n == 0) = true
    · simp only [truncateIdxLoop, if_pos h1]
      exact ih cur accI hacc
    · have hn : n ≠ 0 := by
        intro h
        exact h1 (by simp [h])
      simp only [truncateIdxLoop, if_neg h1]
      by_cases h2 :
          cur + estimateTokenCount (messages.getD n defaultChatMessage).content > maxTokens
      · simp only [if_pos h2]
        exact hacc
      · simp only [if_neg h2]
        refine ih _ (n :: accI) ?_
        simp [List.count_cons, hacc, Ne.symm hn]

/-- Claim C10: when the first message is a system message, the output of
truncateMessagesToFit is the selection of the input messages at the kept
positions, and position 0 — the system message's slot — is kept exactly
once, for every token budget (including budgets smaller than the system
message's own estimated count). -/
theorem truncate_keeps_system_once (messages : List ChatMessage) (maxTokens : Nat)
    (h : headIsSystem messages = true) :
    truncateMessagesToFit messages maxTokens
      = (truncateKeptPositions messages maxTokens).map
          (fun i => messages.getD i defaultChatMessage)
    ∧ (truncateKeptPositions messages maxTokens).count 0 = 1 := by
  constructor
  · unfold truncateMessagesToFit truncateKeptPositions
    simp only [h, if_pos]
    have := truncateLoop_eq_map messages maxTokens true messages.length
      (estimateTokenCount (messages.getD 0 defaultChatMessage).content) [0]
    simpa using this
  · unfold truncateKeptPositions
    simp only [h, if_pos]
    exact truncateIdxLoop_count_zero messages maxTokens messages.length _ [0] rfl

/-- A concrete conversation for the claim C10 witness: the system message
alone estimates to 3 tokens, above the budget of 1. -/
def c10Messages : List ChatMessage :=
  [⟨"system", "aaaaaaaaaa"⟩, ⟨"user", "bbbb"⟩]

/-- Witness for claim C10: the system message survives alone under a budget
its own estimate already exceeds, and position 0 is kept exactly once. -/
theorem truncate_keeps_system_once_witness :
    headIsSystem c10Messages = true
    ∧ 1 < estimateTokenCount (c10Messages.getD 0 defaultChatMessage).content
    ∧ (truncateMessagesToFit c10Messages 1
        = (truncateKeptPositions c10Messages 1).map
            (fun i => c10Messages.getD i defaultChatMessage)
      ∧ (truncateKeptPositions c10Messages 1).count 0 = 1)
    ∧ truncateMessagesToFit c10Messages 1 = [⟨"system", "aaaaaaaaaa"⟩] :=
  ⟨by decide, by decide, truncate_keeps_system_once c10Messages 1 (by decide), by decide⟩

/-- The single-flight invariant holds at the empty-cache start. -/
theorem flightInv_init (S : List OpenRouterModel) (n : Nat) : FlightInv S (initFlight n) := by
  refine ⟨by simp [initFlight], ?_, ?_, ?_, ?_⟩ <;> simp [initFlight, FlightInv]

/-- Every protocol step preserves the single-flight invariant. -/
theorem flightInv_step (S : List OpenRouterModel) (st st' : FlightState)
    (hstep : FlightStep S st st') (hinv : FlightInv S st) : FlightInv S st' := by
  obtain ⟨h1, h2, h3, h4, h5⟩ := hinv
  cases hstep with
  | hitCache c hs hsnap =>
    refine ⟨h1, h2, h3, h4, ?_⟩
    intro x hx
    rcases List.mem_cons.mp hx with h | h
    · exact h ▸ h4 c hsnap
    · exact h5 x h
  | joinFlight hs hsnap hp =>
    exact ⟨h1, h2, h3, h4, h5⟩
  | beginFetch hs hsnap hp =>
    have hc : st.fetchCount = 0 := h3 hsnap hp
    refine ⟨by simp; omega, fun _ => by simp; omega, ?_, h4, h5⟩
    intro _ hfalse
    simp at hfalse
  | completeFetch hp =>
    have hc1 : st.fetchCount = 1 := h2 hp
    refine ⟨h1, ?_, ?_, ?_, ?_⟩
    · intro hfalse
      simp at hfalse
    · intro hnone _
      simp at hnone
    · intro c hc
      have : S = c := by simpa using hc
      exact this.symm
    · intro x hx
      rcases List.mem_append.mp hx with h | h
      · exact List.eq_of_mem_replicate h
      · exact h5 x h

/-- Claim C4: starting from an empty cache with any number of concurrent
getModelInfo callers and any interleaving of protocol steps, the registry
client's fetchModels is invoked at most once, and every caller that
completes observes the same resulting snapshot. -/
theorem singleFlight_at_most_one_fetch (S : List OpenRouterModel) (n : Nat)
    (st : FlightState) (h : FlightReachable S n st) :
    st.fetchCount ≤ 1 ∧ ∀ c ∈ st.finished, c = S := by
  have hinv : FlightInv S st := by
    induction h with
    | refl => exact flightInv_init S n
    | tail hsteps hstep ih => exact flightInv_step S _ _ hstep ih
  exact ⟨hinv.1, hinv.2.2.2.2⟩

/-- The snapshot fetched in the claim C4 witness run. -/
def sfSnapshot : List OpenRouterModel :=
  [⟨"openai/gpt-4", "GPT-4", none, 8192, 0, 0, none⟩]

/-- Witness for claim C4: a concrete interleaving of two callers — the first
starts the fetch, the second attaches to it, the fetch completes — reaches a
state with one fetch where both callers observed the fetched snapshot. -/
theorem singleFlight_at_most_one_fetch_witness :
    FlightReachable sfSnapshot 2 ⟨some sfSnapshot, false, 1, 0, 0, [sfSnapshot, sfSnapshot]⟩
    ∧ (⟨some sfSnapshot, false, 1, 0, 0, [sfSnapshot, sfSnapshot]⟩ : FlightState).fetchCount ≤ 1
    ∧ ∀ c ∈ (⟨some sfSnapshot, false, 1, 0, 0,
        [sfSnapshot, sfSnapshot]⟩ : FlightState).finished, c = sfSnapshot := by
  have hr : FlightReachable sfSnapshot 2
      ⟨some sfSnapshot, false, 1, 0, 0, [sfSnapshot, sfSnapshot]⟩ :=
    Relation.ReflTransGen.head
      (FlightStep.beginFetch (initFlight 2) (by decide) rfl rfl)
      (Relation.ReflTransGen.head
        (FlightStep.joinFlight ⟨none, true, 1, 1, 1, []⟩ (by decide) rfl rfl)
        (Relation.ReflTransGen.head
          (FlightStep.completeFetch ⟨none, true, 1, 0, 2, []⟩ rfl)
          Relation.ReflTransGen.refl))
  exact ⟨hr, (singleFlight_at_most_one_fetch sfSnapshot 2 _ hr).1,
    (singleFlight_at_most_one_fetch sfSnapshot 2 _ hr).2⟩

/-- Claim C5: when a fetch fails with transport errors on attempts 1-4 and
succeeds on attempt 5, the waits between attempts follow the exponential
schedule d0, 2 d0, 4 d0, 8 d0, each clamped at the maximum delay; the call
returns the parsed catalog, and installing the resulting snapshot leaves the
cache populated with it (readable back at install time). -/
theorem fetch_backoff_schedule (d0 maxD : Nat) (raw : List RawEntry)
    (st : CacheState) (now : Nat) :
    (fetchModels d0 maxD (failFourTimes raw)).2
      = [min d0 maxD, min (d0 * 2) maxD, min (d0 * 4) maxD, min (d0 * 8) maxD]
    ∧ (fetchModels d0 maxD (failFourTimes raw)).1 = .ok (parseEntries raw)
    ∧ getCachedModels (setCachedModels st ⟨parseEntries raw, now⟩) now
        = some ⟨parseEntries raw, now⟩ := by
  refine ⟨?_, ?_, ?_⟩
  · simp [fetchModels, maxAttempts, fetchLoop, failFourTimes, backoffDelay]
  · simp [fetchModels, maxAttempts, fetchLoop, failFourTimes]
  · simp [getCachedModels, setCachedModels]

/-- Claim C6: a response body with one well-formed entry and one entry
missing the required id — in either order — yields a successful fetch whose
snapshot contains only the well-formed entry, and a fetch whose first
response parses always succeeds whatever the entries are. -/
theorem fetch_drops_malformed_entry (d0 maxD : Nat) (g b : RawEntry) (gid : String)
    (hg : g.id? = some gid) (hb : b.id? = none) :
    fetchModels d0 maxD (fun _ => some [g, b]) = (.ok [rawToModel g gid], [])
    ∧ fetchModels d0 maxD (fun _ => some [b, g]) = (.ok [rawToModel g gid], [])
    ∧ ∀ body : List RawEntry,
        fetchModels d0 maxD (fun _ => some body) = (.ok (parseEntries body), []) := by
  refine ⟨?_, ?_, fun body => ?_⟩ <;>
    simp [fetchModels, maxAttempts, fetchLoop, parseEntries, hg, hb]

/-- The well-formed entry of the claim C6 witness. -/
def c6Good : RawEntry :=
  ⟨some "openai/gpt-4", "GPT-4", none, 8192, 0, 0, none⟩

/-- The id-less entry of the claim C6 witness. -/
def c6Bad : RawEntry :=
  ⟨none, "broken entry", none, 0, 0, 0, none⟩

/-- Witness for claim C6 at concrete entries and the design-default delays. -/
theorem fetch_drops_malformed_entry_witness :
    c6Good.id? = some "openai/gpt-4"
    ∧ c6Bad.id? = none
    ∧ fetchModels 1000 30000 (fun _ => some [c6Good, c6Bad])
        = (.ok [rawToModel c6Good "openai/gpt-4"], []) :=
  ⟨rfl, rfl, (fetch_drops_malformed_entry 1000 30000 c6Good c6Bad "openai/gpt-4" rfl rfl).1⟩
